import Mathlib

/-!
Shallow embedding of the state-synchronization core of `src/src/App.jsx`
(a React CRUD client for a remote book collection).

The React component's state hooks become the fields of `AppState`; each
event handler (`saveBook`, `toggleFav`, `doDelete`, the initial-load
effect, and the small UI handlers) becomes a pure state-transition
function.  A remote call's outcome is passed in explicitly as an
`ApiResult` value (`ok` carries the parsed response body,
`transportError` is any thrown failure: non-ok HTTP status or network
error).  The request a handler would issue is computed by a separate
`...Request` function, so "no network call is made" is expressible.
-/

/-- A book record as returned by the remote resource.  `id` is the
server-assigned opaque identifier (a string in MockAPI). -/
structure Book where
  id : String
  title : String
  author : String
  coverImage : String
  description : String
  rating : Int
  isFavorite : Bool
deriving DecidableEq

/-- The draft form state (`form` hook): staging copy of the editable
fields while the add/edit modal is open. -/
structure Form where
  title : String
  author : String
  coverImage : String
  description : String
  rating : Int
deriving DecidableEq

/-- Toast kinds used by `showToast`: "success", "error", "info". -/
inductive ToastKind
  | success
  | error
  | info
deriving DecidableEq

/-- The toast state hook `{ show, msg, type }`.  The source field `show`
is a Lean keyword, so it is named `visible` here. -/
structure Toast where
  visible : Bool
  msg : String
  type : ToastKind
deriving DecidableEq

/-- All component state hooks of `App`. -/
structure AppState where
  books : List Book
  loading : Bool
  q : String
  onlyFav : Bool
  toast : Toast
  isModalOpen : Bool
  editing : Option Book
  confirmId : Option String
  form : Form
deriving DecidableEq

/-- Outcome of one remote call: the parsed body on success, or a thrown
`TransportError` (any non-ok status or network failure). -/
inductive ApiResult (α : Type)
  | ok (val : α)
  | transportError
deriving DecidableEq

/-- Body of the initial GET response: a JSON array of books, or any
non-array value (the code guards with `Array.isArray`). -/
inductive LoadData
  | arr (data : List Book)
  | notArray
deriving DecidableEq

/-- Body of the POST request built by `saveBook` in create mode:
the payload fields plus `isFavorite: false`, without an `id`. -/
structure PostBody where
  title : String
  author : String
  coverImage : String
  description : String
  rating : Int
  isFavorite : Bool
deriving DecidableEq

/-- A network request the component can issue. -/
inductive Request
  | get
  | post (body : PostBody)
  | put (id : String) (body : Book)
  | del (id : String)
deriving DecidableEq

/-- The `API_URL` constant from the top of the file. -/
def API_URL : String := "https://698861e1780e8375a6882998.mockapi.io/api/v1/books"

/-- Truthiness of the URL string: `const hasApi = !!API_URL`. -/
def hasApi : Bool := !(API_URL == "")

/-- The fixed placeholder cover used when the trimmed cover field is
blank. -/
def placeholderCover : String := "https://picsum.photos/400/520"

/-- The empty form set by `resetForm` and the initial `useState`. -/
def initialForm : Form :=
  { title := "", author := "", coverImage := "", description := "", rating := 0 }

/-- Initial component state (the `useState` initializers). -/
def initState : AppState :=
  { books := []
    loading := hasApi
    q := ""
    onlyFav := false
    toast := { visible := false, msg := "", type := .success }
    isModalOpen := false
    editing := none
    confirmId := none
    form := initialForm }

/-- The handler `showToast(msg, type)`: sets `show` true with the message and kind.  (The timed
auto-clear is not modelled; no claim is about it.) -/
def showToast (s : AppState) (msg : String) (type : ToastKind) : AppState :=
  { s with toast := { visible := true, msg := msg, type := type } }

/-- The handler `resetForm()`. -/
def resetForm (s : AppState) : AppState :=
  { s with form := initialForm }

/-- The handler `openCreate()`. -/
def openCreate (s : AppState) : AppState :=
  { (resetForm s) with editing := none, isModalOpen := true }

/-- The handler `openEdit(book)`: stages the book's fields in the form.  (`x || ""`
and `Number(x || 0)` are identities on our typed fields.) -/
def openEdit (s : AppState) (book : Book) : AppState :=
  { s with
    editing := some book
    form :=
      { title := book.title
        author := book.author
        coverImage := book.coverImage
        description := book.description
        rating := book.rating }
    isModalOpen := true }

/-- The handler `closeModal()`. -/
def closeModal (s : AppState) : AppState :=
  { s with isModalOpen := false, editing := none }

/-- The handler `askDelete(id)`. -/
def askDelete (s : AppState) (id : String) : AppState :=
  { s with confirmId := some id }

/-- Cancelling the delete confirmation (`setConfirmId(null)`). -/
def cancelDelete (s : AppState) : AppState :=
  { s with confirmId := none }

/-- The clamp `Math.max(0, Math.min(5, r))`. -/
def clampRating (r : Int) : Int := max 0 (min 5 r)

/-- JavaScript `s.trim()`: strip leading and trailing whitespace.
(Defined structurally on the character list so it evaluates by
`decide`.) -/
def jsTrim (s : String) : String :=
  String.mk (((s.data.dropWhile Char.isWhitespace).reverse.dropWhile Char.isWhitespace).reverse)

/-- JavaScript `s.toLowerCase()` (ASCII case folding). -/
def jsToLower (s : String) : String :=
  String.mk (s.data.map Char.toLower)

/-- The trimmed/defaulted payload of `saveBook`, as the POST body sent in
create mode (`{...payload, isFavorite: false}`). -/
def createBody (f : Form) : PostBody :=
  { title := (jsTrim f.title)
    author := (jsTrim f.author)
    coverImage := if (jsTrim f.coverImage) == "" then placeholderCover else (jsTrim f.coverImage)
    description := (jsTrim f.description)
    rating := clampRating f.rating
    isFavorite := false }

/-- The server-created record: the POST body with the server-assigned
fresh `id` (MockAPI echoes the sent fields). -/
def PostBody.withId (p : PostBody) (id : String) : Book :=
  { id := id
    title := p.title
    author := p.author
    coverImage := p.coverImage
    description := p.description
    rating := p.rating
    isFavorite := p.isFavorite }

/-- The PUT body sent in update mode: `{...editing, ...payload}` — the
payload fields override, `id` and `isFavorite` come from `editing`. -/
def putBody (e : Book) (f : Form) : Book :=
  { id := e.id
    title := (jsTrim f.title)
    author := (jsTrim f.author)
    coverImage := if (jsTrim f.coverImage) == "" then placeholderCover else (jsTrim f.coverImage)
    description := (jsTrim f.description)
    rating := clampRating f.rating
    isFavorite := e.isFavorite }

/-- The store reconciliation used after a successful PUT (update and
toggle): `prev.map((b) => (b.id === updated.id ? updated : b))`. -/
def reconcile (books : List Book) (updated : Book) : List Book :=
  books.map (fun b => if b.id = updated.id then updated else b)

/-- The network request `saveBook` issues: `none` when validation fails
(`!form.title.trim() || !form.author.trim()`), else a PUT in edit mode or
a POST in create mode. -/
def saveBookRequest (s : AppState) : Option Request :=
  if (jsTrim s.form.title) == "" || (jsTrim s.form.author) == "" then none
  else
    match s.editing with
    | some e => some (.put e.id (putBody e s.form))
    | none => some (.post (createBody s.form))

/-- The handler `saveBook()` given the remote call's outcome `resp`.  On validation
failure only an error toast is shown (and `resp` is irrelevant: no call
is made, see `saveBookRequest`). -/
def saveBook (s : AppState) (resp : ApiResult Book) : AppState :=
  if (jsTrim s.form.title) == "" || (jsTrim s.form.author) == "" then
    showToast s "Please fill Title and Author" .error
  else
    match s.editing, resp with
    | some _, .ok updated =>
        resetForm (closeModal
          (showToast { s with books := reconcile s.books updated } "✅ Book updated" .success))
    | none, .ok created =>
        resetForm (closeModal
          (showToast { s with books := s.books ++ [created] } "✅ Book added" .success))
    | _, .transportError =>
        showToast s "❌ Save failed. Check API / network." .error

/-- The flipped record `{...book, isFavorite: !book.isFavorite}`. -/
def flipFav (book : Book) : Book :=
  { book with isFavorite := !book.isFavorite }

/-- The PUT request issued by `toggleFav(book)`. -/
def toggleFavRequest (book : Book) : Request :=
  .put book.id (flipFav book)

/-- The handler `toggleFav(book)` given the remote call's outcome. -/
def toggleFav (s : AppState) (book : Book) (resp : ApiResult Book) : AppState :=
  match resp with
  | .ok updated =>
      showToast { s with books := reconcile s.books updated }
        (if updated.isFavorite then "❤️ Added to favorites" else "🤍 Removed from favorites")
        .info
  | .transportError =>
      let _ := book
      showToast s "❌ Failed to update favorite" .error

/-- The DELETE request `doDelete` issues: `none` when no pending-delete
target is set (or it is the falsy empty string, `if (!id) return`). -/
def doDeleteRequest (s : AppState) : Option Request :=
  match s.confirmId with
  | none => none
  | some id => if id == "" then none else some (.del id)

/-- The handler `doDelete()` given the remote call's outcome.  `finally` clears the
pending-delete target on both outcomes. -/
def doDelete (s : AppState) (resp : ApiResult Unit) : AppState :=
  match s.confirmId with
  | none => s
  | some id =>
    if id == "" then s
    else
      match resp with
      | .ok _ =>
          { (showToast { s with books := s.books.filter (fun b => b.id != id) }
              "🗑️ Book deleted" .success) with confirmId := none }
      | .transportError =>
          { (showToast s "❌ Delete failed" .error) with confirmId := none }

/-- The initial-load effect, given the GET outcome.  `finally` ends the
loading state on every path. -/
def initialLoad (s : AppState) (resp : ApiResult LoadData) : AppState :=
  if !hasApi then { s with loading := false }
  else
    match resp with
    | .ok (.arr data) => { s with books := data, loading := false }
    | .ok .notArray => { s with books := [], loading := false }
    | .transportError =>
        { (showToast s "❌ Cannot load books. Check your API URL." .error) with loading := false }

/-- Whether the first character list is an initial segment of the second. -/
def startsWithChars : List Char → List Char → Bool
  | [], _ => true
  | _ :: _, [] => false
  | c :: cs, d :: ds => c == d && startsWithChars cs ds

/-- Whether `q` occurs as a contiguous run inside the second list. -/
def hasSubChars (q : List Char) : List Char → Bool
  | [] => startsWithChars q []
  | c :: tail => startsWithChars q (c :: tail) || hasSubChars q tail

/-- JavaScript `s.includes(q)`: `q` is a substring of `s`. -/
def jsIncludes (s q : String) : Bool := hasSubChars q.toList s.toList

/-- The `filtered` memo: favorites filter then title-substring filter on
the trimmed, lowercased query. -/
def filteredList (books : List Book) (q : String) (onlyFav : Bool) : List Book :=
  let query := (jsToLower (jsTrim q))
  (books.filter (fun b => if onlyFav then b.isFavorite else true)).filter
    (fun b => if query == "" then true else jsIncludes (jsToLower b.title) query)

/-- The spec's membership predicate for the View Projection, written from
the spec's words: favoritesOnly implies favorite, and the trimmed
lowercased query is a substring of the lowercased title (empty query
matches everything). -/
def specMatch (q : String) (onlyFav : Bool) (b : Book) : Bool :=
  (!onlyFav || b.isFavorite) &&
    ((jsToLower (jsTrim q)) == "" || jsIncludes (jsToLower b.title) (jsToLower (jsTrim q)))

/-! ## Operation traces

To state store invariants over whole sessions we close the handlers
under an operation alphabet: each constructor is one completed handler
invocation, carrying the remote call's outcome where one is made. -/

/-- One completed event-handler invocation. -/
inductive Op
  | load (resp : ApiResult LoadData)
  | save (resp : ApiResult Book)
  | toggle (book : Book) (resp : ApiResult Book)
  | del (resp : ApiResult Unit)
  | openCreate
  | openEdit (book : Book)
  | closeModal
  | askDelete (id : String)
  | cancelDelete

/-- Apply one completed handler invocation to the state. -/
def applyOp (s : AppState) : Op → AppState
  | .load resp => initialLoad s resp
  | .save resp => saveBook s resp
  | .toggle book resp => toggleFav s book resp
  | .del resp => doDelete s resp
  | .openCreate => openCreate s
  | .openEdit book => openEdit s book
  | .closeModal => closeModal s
  | .askDelete id => askDelete s id
  | .cancelDelete => cancelDelete s

/-- The server's id discipline, relative to the pre-state: a list
response carries pairwise-distinct ids, and the record created for a
POST carries a fresh id.  (A PUT echo needs no assumption: replacement
never changes the stored id multiset.) -/
def OkResp (s : AppState) : Op → Prop
  | .load (.ok (.arr data)) => (data.map Book.id).Nodup
  | .save (.ok created) => s.editing = none → created.id ∉ s.books.map Book.id
  | _ => True

/-- States reachable from `s` by completed handler invocations whose
responses respect the server's id discipline. -/
inductive Reachable : AppState → AppState → Prop
  | refl (s : AppState) : Reachable s s
  | step {s t : AppState} (op : Op) : Reachable s t → OkResp t op → Reachable s (applyOp t op)

/-- The store holds pairwise-distinct ids. -/
def idsNodup (s : AppState) : Prop := (s.books.map Book.id).Nodup

/-! ## Concrete fixtures (used by closed witness statements) -/

/-- A concrete stored book. -/
def bkDune : Book :=
  { id := "1", title := "Dune", author := "Herbert", coverImage := "c",
    description := "", rating := 4, isFavorite := false }

/-- A state whose store holds exactly `bkDune`. -/
def stDune : AppState := { initState with books := [bkDune] }

/-- A valid draft form. -/
def validForm : Form :=
  { title := "T", author := "A", coverImage := "", description := "", rating := 0 }

/-- A state with a stored book, a valid draft, and a pending delete. -/
def c1State : AppState :=
  { initState with books := [bkDune], confirmId := some "1", form := validForm }

/-- A draft whose cover-image field carries surrounding whitespace. -/
def c2Form : Form :=
  { title := "T", author := "A", coverImage := " x ", description := "", rating := 3 }

/-- A create-mode state holding `c2Form`. -/
def c2State : AppState := { initState with isModalOpen := true, form := c2Form }

/-- A server-confirmed record whose id is absent from `stDune`'s store. -/
def bkOther : Book :=
  { id := "2", title := "Emma", author := "Austen", coverImage := "c2",
    description := "", rating := 2, isFavorite := true }

/-! ## Helper lemmas -/

/-- Replacement reconciliation never changes the list of stored ids. -/
theorem reconcile_map_id (books : List Book) (r : Book) :
    (reconcile books r).map Book.id = books.map Book.id := by
  unfold reconcile
  rw [List.map_map]
  apply List.map_congr_left
  intro b _
  by_cases h : b.id = r.id <;> simp [Function.comp, h]

/-- If no stored record has the incoming id, reconciliation is the
identity: nothing is inserted. -/
theorem reconcile_eq_of_absent {books : List Book} {r : Book}
    (h : r.id ∉ books.map Book.id) : reconcile books r = books := by
  unfold reconcile
  conv_rhs => rw [← List.map_id books]
  apply List.map_congr_left
  intro b hb
  have : b.id ≠ r.id := fun he => h (he ▸ List.mem_map_of_mem Book.id hb)
  simp [this]

/-- If every stored record with the incoming id already equals the
incoming record, reconciliation is the identity. -/
theorem reconcile_eq_of_fixed {books : List Book} {r : Book}
    (h : ∀ b ∈ books, b.id = r.id → b = r) : reconcile books r = books := by
  unfold reconcile
  conv_rhs => rw [← List.map_id books]
  apply List.map_congr_left
  intro b hb
  by_cases he : b.id = r.id
  · simp [he, (h b hb he).symm]
  · simp [he]

/-- Two successive reconciliations at the same id collapse to the
second one. -/
theorem reconcile_reconcile (books : List Book) (r₁ r₂ : Book)
    (hid : r₁.id = r₂.id) :
    reconcile (reconcile books r₁) r₂ = reconcile books r₂ := by
  unfold reconcile
  rw [List.map_map]
  apply List.map_congr_left
  intro b _
  by_cases h : b.id = r₂.id <;> simp [Function.comp, h, hid]

/-- Deleting by id preserves distinctness of stored ids. -/
theorem nodup_ids_filter {books : List Book} (p : Book → Bool)
    (h : (books.map Book.id).Nodup) : ((books.filter p).map Book.id).Nodup :=
  ((List.filter_sublist books).map Book.id).nodup h

/-- Appending a fresh-id record preserves distinctness of stored ids. -/
theorem nodup_ids_append {books : List Book} {c : Book}
    (h : (books.map Book.id).Nodup) (hfresh : c.id ∉ books.map Book.id) :
    ((books ++ [c]).map Book.id).Nodup := by
  rw [List.map_append]
  exact List.nodup_append.mpr
    ⟨h, List.nodup_singleton _, by
      intro a ha hb
      simp only [List.map_cons, List.map_nil, List.mem_singleton] at hb
      exact hfresh (hb ▸ ha)⟩

/-- Every single operation preserves distinctness of stored ids, given
the server's id discipline for that operation. -/
theorem applyOp_idsNodup {s : AppState} (op : Op)
    (h : idsNodup s) (hok : OkResp s op) : idsNodup (applyOp s op) := by
  unfold idsNodup at *
  cases op with
  | load resp =>
    cases resp with
    | ok data =>
      cases data with
      | arr l =>
        simp only [applyOp, initialLoad]
        split
        · exact h
        · exact hok
      | notArray =>
        simp only [applyOp, initialLoad]
        split
        · exact h
        · simp
    | transportError =>
      simp only [applyOp, initialLoad]
      split <;> simp [showToast, h]
  | save resp =>
    simp only [applyOp, saveBook]
    split
    · simpa [showToast] using h
    · cases hed : s.editing with
      | some e =>
        cases resp with
        | ok r => simpa [hed, resetForm, closeModal, showToast, reconcile_map_id] using h
        | transportError => simpa [hed, showToast] using h
      | none =>
        cases resp with
        | ok r =>
          have hfresh := hok hed
          simpa [hed, resetForm, closeModal, showToast] using nodup_ids_append h hfresh
        | transportError => simpa [hed, showToast] using h
  | toggle book resp =>
    cases resp with
    | ok r => simpa [applyOp, toggleFav, showToast, reconcile_map_id] using h
    | transportError => simpa [applyOp, toggleFav, showToast] using h
  | del resp =>
    simp only [applyOp, doDelete]
    cases hc : s.confirmId with
    | none => exact h
    | some id =>
      simp only
      split
      · exact h
      · cases resp with
        | ok u => simpa [showToast] using nodup_ids_filter _ h
        | transportError => simpa [showToast] using h
  | openCreate => simpa [applyOp, openCreate, resetForm] using h
  | openEdit book => simpa [applyOp, openEdit] using h
  | closeModal => simpa [applyOp, closeModal] using h
  | askDelete id => simpa [applyOp, askDelete] using h
  | cancelDelete => simpa [applyOp, cancelDelete] using h

/-! ## Claims -/

/-- Reduction of `doDelete` when a pending-delete target is set. -/
theorem doDelete_eq_some {s : AppState} {id : String} (hc : s.confirmId = some id)
    (resp : ApiResult Unit) :
    doDelete s resp =
      if (id == "") = true then s
      else
        match resp with
        | .ok _ =>
            { (showToast { s with books := s.books.filter (fun b => b.id != id) }
                "🗑️ Book deleted" .success) with confirmId := none }
        | .transportError =>
            { (showToast s "❌ Delete failed" .error) with confirmId := none } := by
  unfold doDelete
  rw [hc]

/-- C1: for every operation (create/update via `saveBook`,
toggle-favorite, delete), when the remote call fails with a
`TransportError` the Collection Store afterwards equals the store before
the attempt — no record is inserted, replaced, or removed (in
particular, lookup by any id is unchanged after a failed update) — and
an error notification is emitted. -/
theorem c1_transport_error_keeps_store (s : AppState) (book : Book) (i : String)
    (hsave : saveBookRequest s ≠ none) (hdel : doDeleteRequest s ≠ none) :
    (saveBook s .transportError).books = s.books ∧
    (toggleFav s book .transportError).books = s.books ∧
    (doDelete s .transportError).books = s.books ∧
    (saveBook s .transportError).toast =
      { visible := true, msg := "❌ Save failed. Check API / network.", type := .error } ∧
    (toggleFav s book .transportError).toast =
      { visible := true, msg := "❌ Failed to update favorite", type := .error } ∧
    (doDelete s .transportError).toast =
      { visible := true, msg := "❌ Delete failed", type := .error } ∧
    (saveBook s .transportError).books.find? (fun b => b.id == i) =
      s.books.find? (fun b => b.id == i) := by
  have hcond : ¬(((jsTrim s.form.title == "") || (jsTrim s.form.author == "")) = true) := by
    intro hc
    apply hsave
    unfold saveBookRequest
    rw [if_pos hc]
  obtain ⟨id, hc, hid⟩ : ∃ id, s.confirmId = some id ∧ ¬((id == "") = true) := by
    unfold doDeleteRequest at hdel
    cases hc : s.confirmId with
    | none => rw [hc] at hdel; exact absurd rfl hdel
    | some id =>
      by_cases hid : (id == "") = true
      · rw [hc] at hdel
        refine absurd ?_ hdel
        show (if (id == "") = true then none else some (Request.del id)) = none
        rw [if_pos hid]
      · exact ⟨id, rfl, hid⟩
  have hsb : (saveBook s .transportError).books = s.books := by
    unfold saveBook
    rw [if_neg hcond]
    cases s.editing <;> rfl
  refine ⟨hsb, rfl, ?_, ?_, rfl, ?_, ?_⟩
  · rw [doDelete_eq_some hc, if_neg hid]; rfl
  · unfold saveBook
    rw [if_neg hcond]
    cases s.editing <;> rfl
  · rw [doDelete_eq_some hc, if_neg hid]; rfl
  · rw [hsb]

/-- C1 witness: the theorem applied at a concrete failing state. -/
theorem c1_transport_error_keeps_store_witness :
    (saveBook c1State .transportError).books = [bkDune] :=
  (c1_transport_error_keeps_store c1State bkDune "1" (by decide) (by decide)).1

/-- C3: when the trimmed title or trimmed author of the draft is empty,
`saveBook` emits an error notification, makes no network call, and
leaves the Collection Store and the open editor (modal flag, editing
target, and form) unchanged. -/
theorem c3_validation_failure (s : AppState) (resp : ApiResult Book)
    (h : jsTrim s.form.title = "" ∨ jsTrim s.form.author = "") :
    saveBookRequest s = none ∧
    (saveBook s resp).books = s.books ∧
    (saveBook s resp).isModalOpen = s.isModalOpen ∧
    (saveBook s resp).editing = s.editing ∧
    (saveBook s resp).form = s.form ∧
    (saveBook s resp).toast =
      { visible := true, msg := "Please fill Title and Author", type := .error } := by
  have hcond : (((jsTrim s.form.title == "") || (jsTrim s.form.author == "")) = true) := by
    rcases h with h | h <;> simp [h]
  unfold saveBookRequest saveBook
  rw [if_pos hcond, if_pos hcond]
  exact ⟨rfl, rfl, rfl, rfl, rfl, rfl⟩

/-- C3 witness: the initial (empty-form) state. -/
theorem c3_validation_failure_witness : saveBookRequest initState = none :=
  (c3_validation_failure initState .transportError (Or.inl (by decide))).1

/-- C9: if the initial full-collection load fails with a
`TransportError`, the collection stays empty, an error notification is
emitted, and the loading state ends (the handler returns a state, so the
application stays interactive rather than crashing). -/
theorem c9_initial_load_failure :
    (initialLoad initState .transportError).books = [] ∧
    (initialLoad initState .transportError).loading = false ∧
    (initialLoad initState .transportError).toast =
      { visible := true, msg := "❌ Cannot load books. Check your API URL.", type := .error } := by
  decide

/-- C10: if the initial list call succeeds but the body is not an array,
the store is set to the empty collection (not the malformed value) and
no notification is emitted; loading still ends. -/
theorem c10_not_array_load (s : AppState) :
    (initialLoad s (.ok .notArray)).books = [] ∧
    (initialLoad s (.ok .notArray)).toast = s.toast ∧
    (initialLoad s (.ok .notArray)).loading = false := by
  unfold initialLoad
  have h : (!hasApi) = false := by decide
  simp [h]

/-- C2 counterexample: for the draft `c2Form` (trimmed title and author
non-empty, trimmed cover image non-blank), a successful create stores a
record whose `coverImage` is the *trimmed* draft value `"x"`, not the
draft value `" x "` — so the stored `coverImage` is not the draft value,
contradicting the claim as stated. -/
theorem c2_cover_image_is_trimmed_counterexample :
    jsTrim c2Form.title ≠ "" ∧ jsTrim c2Form.author ≠ "" ∧
    jsTrim c2Form.coverImage ≠ "" ∧
    saveBookRequest c2State = some (.post (createBody c2Form)) ∧
    (saveBook c2State (.ok ((createBody c2Form).withId "9"))).books =
      [(createBody c2Form).withId "9"] ∧
    ((createBody c2Form).withId "9").coverImage ≠ c2Form.coverImage := by
  decide

/-- C2 (amended): for every draft with non-empty trimmed title and
author, a successful create submits and stores (appended as exactly one
new element) a record whose `title`, `author`, `description` are the
trimmed draft fields, whose `rating` is the draft rating clamped to
[0,5], whose `coverImage` is the placeholder when the trimmed draft
cover is blank and the *trimmed* draft value otherwise, and whose
`isFavorite` is `false`. -/
theorem c2_create_success (s : AppState) (newId : String)
    (ht : jsTrim s.form.title ≠ "") (ha : jsTrim s.form.author ≠ "")
    (he : s.editing = none) :
    saveBookRequest s = some (.post (createBody s.form)) ∧
    (saveBook s (.ok ((createBody s.form).withId newId))).books =
      s.books ++ [(createBody s.form).withId newId] ∧
    ((createBody s.form).withId newId).title = jsTrim s.form.title ∧
    ((createBody s.form).withId newId).author = jsTrim s.form.author ∧
    ((createBody s.form).withId newId).description = jsTrim s.form.description ∧
    ((createBody s.form).withId newId).rating = clampRating s.form.rating ∧
    0 ≤ ((createBody s.form).withId newId).rating ∧
    ((createBody s.form).withId newId).rating ≤ 5 ∧
    ((createBody s.form).withId newId).coverImage =
      (if (jsTrim s.form.coverImage) == "" then placeholderCover
       else jsTrim s.form.coverImage) ∧
    ((createBody s.form).withId newId).isFavorite = false := by
  have hcond : ¬(((jsTrim s.form.title == "") || (jsTrim s.form.author == "")) = true) := by
    simp [ht, ha]
  refine ⟨?_, ?_, rfl, rfl, rfl, rfl, le_max_left 0 _, max_le (by norm_num) (min_le_left 5 _),
    rfl, rfl⟩
  · unfold saveBookRequest
    rw [if_neg hcond, he]
  · unfold saveBook
    rw [if_neg hcond, he]
    rfl

/-- C2 witness: creating from a concrete valid draft appends the
confirmed record. -/
theorem c2_create_success_witness :
    (saveBook { initState with form := validForm }
        (.ok ((createBody validForm).withId "7"))).books =
      [(createBody validForm).withId "7"] :=
  (c2_create_success { initState with form := validForm } "7"
    (by decide) (by decide) rfl).2.1

/-- C4 counterexample: applying a confirmed record whose `id` is absent
from the store (store `[bkDune]` with id "1", confirmed record id "2")
leaves the store unchanged — the record is *not* inserted, so the
reconciliation is not an upsert. -/
theorem c4_no_insert_counterexample :
    bkOther.id ∉ stDune.books.map Book.id ∧
    (toggleFav stDune bkDune (.ok bkOther)).books = [bkDune] ∧
    bkOther ∉ (toggleFav stDune bkDune (.ok bkOther)).books := by
  decide

/-- C4 (amended): the reconciliation applied after a successful update
or toggle-favorite replaces in place: every stored record with the
returned record's id is overwritten entirely by the returned record,
every other record is kept unchanged, and when no stored record has that
id the store is left unchanged (nothing is inserted). -/
theorem c4_reconcile_replaces_in_place (s : AppState) (book r e : Book)
    (he : s.editing = some e)
    (ht : jsTrim s.form.title ≠ "") (ha : jsTrim s.form.author ≠ "") :
    (toggleFav s book (.ok r)).books =
      s.books.map (fun b => if b.id = r.id then r else b) ∧
    (r.id ∉ s.books.map Book.id → (toggleFav s book (.ok r)).books = s.books) ∧
    (saveBook s (.ok r)).books =
      s.books.map (fun b => if b.id = r.id then r else b) ∧
    (r.id ∉ s.books.map Book.id → (saveBook s (.ok r)).books = s.books) := by
  have hcond : ¬(((jsTrim s.form.title == "") || (jsTrim s.form.author == "")) = true) := by
    simp [ht, ha]
  have hsv : (saveBook s (.ok r)).books = reconcile s.books r := by
    unfold saveBook
    rw [if_neg hcond, he]
    rfl
  refine ⟨rfl, ?_, hsv, ?_⟩
  · intro habs
    show reconcile s.books r = s.books
    exact reconcile_eq_of_absent habs
  · intro habs
    rw [hsv]
    exact reconcile_eq_of_absent habs

/-- C4 witness: an in-place replacement at a present id. -/
theorem c4_reconcile_replaces_in_place_witness :
    (toggleFav { stDune with editing := some bkDune, form := validForm }
        bkDune (.ok (flipFav bkDune))).books = [flipFav bkDune] :=
  ((c4_reconcile_replaces_in_place
      { stDune with editing := some bkDune, form := validForm }
      bkDune (flipFav bkDune) bkDune rfl (by decide) (by decide)).1).trans (by decide)

/-- C5: starting from a store with pairwise-distinct ids, every sequence
of completed operations (initial load, create, update, toggle-favorite,
delete, and the UI-only handlers) preserves the invariant that the
Collection Store never contains two records with the same id, assuming
each server response follows the id rules (distinct ids in a list
response, a fresh id for a created record). -/
theorem c5_no_duplicate_ids (s t : AppState) (h0 : idsNodup s)
    (h : Reachable s t) : idsNodup t := by
  induction h with
  | refl => exact h0
  | step op _ hok ih => exact applyOp_idsNodup op ih hok

/-- C5 witness: a concrete two-step trace from the initial state. -/
theorem c5_no_duplicate_ids_witness :
    idsNodup (applyOp (applyOp initState (Op.load (.ok (.arr [bkDune])))) Op.openCreate) :=
  c5_no_duplicate_ids initState _
    (show (List.map Book.id initState.books).Nodup by decide)
    (Reachable.step Op.openCreate
      (Reachable.step (Op.load (.ok (.arr [bkDune]))) (Reachable.refl _)
        (show (List.map Book.id [bkDune]).Nodup by decide))
      trivial)

/-- C6: the View Projection equals the filter of the store by the spec's
predicate — favoritesOnly implies the record is a favorite, and the
trimmed lowercased query is a substring of the lowercased title (an
empty query matches everything) — and is therefore a subsequence of the
store in store order; as a pure function it cannot mutate the store and
is deterministic. -/
theorem c6_projection_matches_spec (books : List Book) (q : String) (onlyFav : Bool) :
    filteredList books q onlyFav = books.filter (specMatch q onlyFav) ∧
    (filteredList books q onlyFav).Sublist books := by
  constructor
  · simp only [filteredList, specMatch]
    rw [List.filter_filter]
    apply List.filter_congr
    intro b _
    unfold specMatch
    cases onlyFav <;> cases hq : (jsToLower (jsTrim q) == "") <;>
      simp [hq, Bool.and_comm]
  · simp only [filteredList]
    exact (List.filter_sublist _).trans (List.filter_sublist _)

/-- C7: toggling a stored record's favorite flag twice, with both remote
calls succeeding and the server echoing the sent record, restores the
store exactly (in particular `isFavorite` returns to its original
value), and each toggle sends and stores a record that differs from the
target only in `isFavorite`. -/
theorem c7_double_toggle_restores (s : AppState) (r : Book)
    (hnd : (s.books.map Book.id).Nodup) (hmem : r ∈ s.books) :
    (toggleFav (toggleFav s r (.ok (flipFav r))) (flipFav r)
        (.ok (flipFav (flipFav r)))).books = s.books ∧
    toggleFavRequest r = .put r.id (flipFav r) ∧
    (flipFav r).isFavorite = !r.isFavorite ∧
    flipFav (flipFav r) = r ∧
    (flipFav r).id = r.id ∧ (flipFav r).title = r.title ∧
    (flipFav r).author = r.author ∧ (flipFav r).coverImage = r.coverImage ∧
    (flipFav r).description = r.description ∧ (flipFav r).rating = r.rating := by
  have hflip : flipFav (flipFav r) = r := by
    unfold flipFav
    cases r
    simp
  refine ⟨?_, rfl, rfl, hflip, rfl, rfl, rfl, rfl, rfl, rfl⟩
  show reconcile (reconcile s.books (flipFav r)) (flipFav (flipFav r)) = s.books
  rw [hflip, reconcile_reconcile s.books (flipFav r) r rfl]
  exact reconcile_eq_of_fixed (fun b hb he => List.inj_on_of_nodup_map hnd hb hmem he)

/-- C7 witness: a double toggle on the singleton store. -/
theorem c7_double_toggle_restores_witness :
    (toggleFav (toggleFav stDune bkDune (.ok (flipFav bkDune))) (flipFav bkDune)
        (.ok (flipFav (flipFav bkDune)))).books = [bkDune] :=
  (c7_double_toggle_restores stDune bkDune (by decide) (by decide)).1

/-- C8: when a delete attempt is actually made (a pending-delete target
is set), the pending-delete target is cleared afterwards whether the
remote call succeeded or failed; on success exactly the records with
that id are removed and every other record is kept; on failure the store
is unchanged; and if the confirmation is never affirmed (no pending
target when `doDelete` runs, or only `askDelete` happened) the store is
unchanged. -/
theorem c8_delete_confirmation (s : AppState) (resp : ApiResult Unit) (i : String)
    (hreq : doDeleteRequest s = some (.del i)) :
    (doDelete s resp).confirmId = none ∧
    (doDelete s (.ok ())).books = s.books.filter (fun b => b.id != i) ∧
    (∀ b ∈ s.books, b.id ≠ i → b ∈ (doDelete s (.ok ())).books) ∧
    (∀ b ∈ (doDelete s (.ok ())).books, b.id ≠ i) ∧
    (doDelete s .transportError).books = s.books ∧
    (∀ t : AppState, t.confirmId = none → doDelete t resp = t) ∧
    (∀ (t : AppState) (j : String), (askDelete t j).books = t.books) := by
  obtain ⟨id, hc, hid, hii⟩ :
      ∃ id, s.confirmId = some id ∧ ¬((id == "") = true) ∧ id = i := by
    unfold doDeleteRequest at hreq
    cases hc : s.confirmId with
    | none => rw [hc] at hreq; exact absurd hreq (by simp)
    | some id =>
      rw [hc] at hreq
      have hreq' : (if (id == "") = true then none else some (Request.del id)) =
          some (Request.del i) := hreq
      by_cases hid : (id == "") = true
      · rw [if_pos hid] at hreq'
        exact absurd hreq' (by simp)
      · rw [if_neg hid] at hreq'
        refine ⟨id, rfl, hid, ?_⟩
        injection hreq' with h
        injection h
  subst hii
  have hbooks : (doDelete s (.ok ())).books = s.books.filter (fun b => b.id != id) := by
    rw [doDelete_eq_some hc, if_neg hid]
    rfl
  refine ⟨?_, hbooks, ?_, ?_, ?_, ?_, fun t j => rfl⟩
  · cases resp with
    | ok u => rw [doDelete_eq_some hc, if_neg hid]
    | transportError => rw [doDelete_eq_some hc, if_neg hid]
  · intro b hb hne
    rw [hbooks]
    exact List.mem_filter.mpr ⟨hb, by simpa using hne⟩
  · intro b hb
    rw [hbooks] at hb
    simpa using (List.mem_filter.mp hb).2
  · rw [doDelete_eq_some hc, if_neg hid]
    rfl
  · intro t hct
    unfold doDelete
    rw [hct]

/-- C8 witness: a confirmed delete of the only stored record. -/
theorem c8_delete_confirmation_witness :
    (doDelete { stDune with confirmId := some "1" } (.ok ())).books = [] :=
  ((c8_delete_confirmation { stDune with confirmId := some "1" } (.ok ()) "1"
      (by decide)).2.1).trans (by decide)
